import Mathlib

/-!
Shallow embedding of examples/viewer/main.cpp from the RoboGrammar viewer
example: the morphology-rewriting loop (lines 89-98), the episode loop with
its replay buffer (lines 155-202), and the rendering replay loop (lines
230-255).  The external library types (Graph, Rule, GraphMapping, the
simulation, the optimizer) appear only through the operations main.cpp
invokes on them, so they are abstract type parameters here; the C++ Scalar
type is modelled by the exact rationals.
-/

namespace RoboGrammar

/-- One step of the rule-application loop in main (main.cpp lines 89-98):
when the index is in range, find the matches of the rule against the current
graph and, when at least one exists, apply the rule at the first match;
otherwise the graph is unchanged. -/
def rewriteStep {Graph Rule Match : Type} (rules : List Rule)
    (findMatches : Rule → Graph → List Match)
    (applyRule : Rule → Graph → Match → Graph)
    (g : Graph) (rule_idx : Nat) : Graph :=
  if h : rule_idx < rules.length then
    match findMatches (rules.get ⟨rule_idx, h⟩) g with
    | [] => g
    | m :: _ => applyRule (rules.get ⟨rule_idx, h⟩) g m
  else g

/-- The whole rule-sequence loop of main.cpp lines 89-98, folded over the
rule-index sequence. -/
def applyRuleSequence {Graph Rule Match : Type} (rules : List Rule)
    (findMatches : Rule → Graph → List Match)
    (applyRule : Rule → Graph → Match → Graph)
    (seq : List Nat) (g : Graph) : Graph :=
  seq.foldl (rewriteStep rules findMatches applyRule) g

/-- Setup phase of main (main.cpp lines 71-98): the rule graphs are loaded,
the program exits with code 1 when none were loaded, and otherwise every
graph is converted to a rule and the seed robot graph is rewritten by the
rule-index sequence. -/
def runViewerSetup {Graph Rule Match : Type} (rule_graphs : List Graph)
    (createRuleFromGraph : Graph → Rule)
    (findMatches : Rule → Graph → List Match)
    (applyRule : Rule → Graph → Match → Graph)
    (seq : List Nat) (seed : Graph) : Except Nat Graph :=
  if rule_graphs.isEmpty then Except.error 1
  else
    Except.ok (applyRuleSequence (rule_graphs.map createRuleFromGraph)
      findMatches applyRule seq seed)

/-- Backward return recursion of main.cpp lines 190-193: given the reward
sequence and the terminal bootstrap value v, the list holds
returns(0), ..., returns(episode_len), with returns(episode_len) = v and
returns(j) = rewards(j) + discount_factor * returns(j+1). -/
def computeReturns (discount_factor : ℚ) (rewards : List ℚ) (v : ℚ) : List ℚ :=
  match rewards with
  | [] => [v]
  | r :: rs =>
    let rest := computeReturns discount_factor rs v
    (r + discount_factor * rest.headI) :: rest

/-- State of one simulation instance together with its checkpoint slot.
Modelled from the spec: BulletSimulation (robot_design/sim.h, not part of
this source tree) supports a save/restore discipline in which saveState
captures the current dynamics state and a subsequent restoreState returns
exactly to that captured state, discarding all intervening steps; at most
one outstanding saved state is required (spec section 3, Simulation
Instance). -/
structure SimState (σ : Type) where
  current : σ
  saved : Option σ

/-- Modelled from the spec: saveState captures the current dynamics state. -/
def saveState {σ : Type} (s : SimState σ) : SimState σ :=
  { current := s.current, saved := some s.current }

/-- Modelled from the spec: restoreState returns exactly to the captured
state, discarding all intervening steps. -/
def restoreState {σ : Type} (s : SimState σ) : SimState σ :=
  { current := s.saved.getD s.current, saved := s.saved }

/-- The operations main.cpp invokes on the optimizer, the value estimator,
the objective and the main simulation during one episode, bundled.  OptS is
the optimizer state, σ the raw simulation state, Obs an observation, Act a
joint-target column. -/
structure EpisodeParams (OptS σ Obs Act : Type) where
  update : OptS → OptS
  firstCol : OptS → Act
  advance : OptS → OptS
  getObservation : σ → Obs
  physicsStep : Act → σ → σ
  objective : σ → ℚ
  estimateValue : Obs → ℚ
  discount_factor : ℚ
  interval : Nat

/-- Result of one control step of the episode loop body. -/
structure StepResult (OptS σ Obs Act : Type) where
  opt : OptS
  sim : σ
  ob : Obs
  action : Act
  reward : ℚ

/-- Result of the inner for-loop over the episode's control steps. -/
structure StepsResult (OptS σ Obs Act : Type) where
  opt : OptS
  sim : σ
  obsList : List Obs
  actions : List Act
  rewards : List ℚ

/-- Result of one full episode. -/
structure EpisodeResult (σ Obs Act : Type) where
  sim : SimState σ
  obsList : List Obs
  finalObs : Obs
  actions : List Act
  rewards : List ℚ
  returns : List ℚ

/-- Inner physics loop of one control step (main.cpp lines 179-184): the
committed joint targets are applied, the simulation steps, and the
objective value is added to the reward accumulator, n times with the same
targets. -/
def replayInterval {σ Act : Type} (physicsStep : Act → σ → σ)
    (objective : σ → ℚ) (action : Act) : Nat → σ → ℚ → σ × ℚ
  | 0, s, reward => (s, reward)
  | n + 1, s, reward =>
    let s' := physicsStep action s
    replayInterval physicsStep objective action n s' (reward + objective s')

/-- One control step of the episode loop (main.cpp lines 173-184): update
the optimizer, commit the first column of its plan, advance the window by
one, record the observation of the current main-simulation state, then
replay the committed action for interval physics steps accumulating the
reward. -/
def controlStep {OptS σ Obs Act : Type} (P : EpisodeParams OptS σ Obs Act)
    (opt : OptS) (s : σ) : StepResult OptS σ Obs Act :=
  let opt1 := P.update opt
  let action := P.firstCol opt1
  let opt2 := P.advance opt1
  let ob := P.getObservation s
  let res := replayInterval P.physicsStep P.objective action P.interval s 0
  { opt := opt2, sim := res.1, ob := ob, action := action, reward := res.2 }

/-- The for-loop over the episode's control steps (main.cpp lines 173-185),
collecting the recorded input_sequence columns, observations and rewards
in order. -/
def runSteps {OptS σ Obs Act : Type} (P : EpisodeParams OptS σ Obs Act) :
    Nat → OptS → σ → StepsResult OptS σ Obs Act
  | 0, opt, s => ⟨opt, s, [], [], []⟩
  | n + 1, opt, s =>
    let r := controlStep P opt s
    let rest := runSteps P n r.opt r.sim
    ⟨rest.opt, rest.sim, r.ob :: rest.obsList, r.action :: rest.actions,
      r.reward :: rest.rewards⟩

/-- One episode of the loop in main.cpp lines 156-202: warm up the fresh
optimizer with 10 updates, save the main simulation state, run episode_len
control steps in lockstep, record the final observation, restore the saved
state, and compute the bootstrapped returns. -/
def runEpisode {OptS σ Obs Act : Type} (P : EpisodeParams OptS σ Obs Act)
    (episode_len : Nat) (opt0 : OptS) (sim0 : SimState σ) :
    EpisodeResult σ Obs Act :=
  let opt1 := P.update^[10] opt0
  let sim1 := saveState sim0
  let sr := runSteps P episode_len opt1 sim1.current
  let finalObs := P.getObservation sr.sim
  let sim2 := restoreState { current := sr.sim, saved := sim1.saved }
  { sim := sim2, obsList := sr.obsList, finalObs := finalObs,
    actions := sr.actions, rewards := sr.rewards,
    returns := computeReturns P.discount_factor sr.rewards
      (P.estimateValue finalObs) }

/-- State threaded through the episode loop: the master generator, the main
simulation, the recorded input_sequence (one column per control step), the
replay buffer (replay_obs and replay_returns zipped into pairs), and the
instrumented list of arguments passed to successive train calls. -/
structure RunState (G σ Obs Act : Type) where
  gen : G
  sim : SimState σ
  plan : List Act
  buffer : List (Obs × ℚ)
  trainCalls : List (List (Obs × ℚ))

/-- One iteration of the episode loop (main.cpp lines 156-202): draw a
fresh optimizer seed from the master generator, run the episode, append the
episode's episode_len observation/return pairs to the replay buffer, and
train the value estimator on the entire accumulated buffer. -/
def episodeStep {OptS σ Obs Act G : Type} (P : EpisodeParams OptS σ Obs Act)
    (nextSeed : G → Nat × G) (optInit : Nat → OptS) (episode_len : Nat)
    (st : RunState G σ Obs Act) : RunState G σ Obs Act :=
  let sg := nextSeed st.gen
  let ep := runEpisode P episode_len (optInit sg.1) st.sim
  let buffer' := st.buffer ++ ep.obsList.zip (ep.returns.take episode_len)
  { gen := sg.2, sim := ep.sim, plan := ep.actions, buffer := buffer',
    trainCalls := st.trainCalls ++ [buffer'] }

/-- The whole episode loop, iterated episode_count times. -/
def runEpisodes {OptS σ Obs Act G : Type} (P : EpisodeParams OptS σ Obs Act)
    (nextSeed : G → Nat × G) (optInit : Nat → OptS) (episode_len : Nat)
    (episode_count : Nat) (st : RunState G σ Obs Act) : RunState G σ Obs Act :=
  (episodeStep P nextSeed optInit episode_len)^[episode_count] st

/-- Optimization phase of main (main.cpp lines 148-203): input_sequence
starts as the dof_count x episode_len zero matrix (stored as a list of
columns) and the replay buffer starts empty; when the optimize flag is set
the episode loop runs, otherwise nothing happens. -/
def optimPhase {OptS σ Obs G : Type} (optim : Bool)
    (P : EpisodeParams OptS σ Obs (List ℚ))
    (nextSeed : G → Nat × G) (optInit : Nat → OptS)
    (dof_count episode_len episode_count : Nat)
    (gen0 : G) (sim0 : SimState σ) : RunState G σ Obs (List ℚ) :=
  let st0 : RunState G σ Obs (List ℚ) :=
    { gen := gen0, sim := sim0,
      plan := List.replicate episode_len (List.replicate dof_count (0 : ℚ)),
      buffer := [], trainCalls := [] }
  if optim then runEpisodes P nextSeed optInit episode_len episode_count st0
  else st0

/-- One iteration of the rendering replay loop body (main.cpp lines
237-252): apply column j of the recorded plan and step the simulation,
increment the physics-substep counter i, roll over to the next column
after interval substeps, and wrap back to column 0 restoring the saved
state once j reaches the number of recorded columns.  The state is the
triple (i, j, simulation). -/
def renderIterate {σ : Type} (physicsStep : List ℚ → σ → σ)
    (input_sequence : List (List ℚ)) (interval : Nat)
    (st : Nat × Nat × SimState σ) : Nat × Nat × SimState σ :=
  let sim' : SimState σ :=
    { current := physicsStep (input_sequence.getD st.2.1 []) st.2.2.current,
      saved := st.2.2.saved }
  let i' := st.1 + 1
  if interval ≤ i' then
    if input_sequence.length ≤ st.2.1 + 1 then (0, 0, restoreState sim')
    else (0, st.2.1 + 1, sim')
  else
    if input_sequence.length ≤ st.2.1 then (0, 0, restoreState sim')
    else (i', st.2.1, sim')

/-- Concrete trivial episode parameters over unit types, used only to
instantiate witness statements on closed inputs. -/
def trivialParams : EpisodeParams Unit Unit Unit (List ℚ) :=
  { update := fun _ => (), firstCol := fun _ => [], advance := fun _ => (),
    getObservation := fun _ => (), physicsStep := fun _ _ => (),
    objective := fun _ => 0, estimateValue := fun _ => 0,
    discount_factor := 1, interval := 4 }

/-! Helper lemmas -/

theorem computeReturns_length (γ : ℚ) (rewards : List ℚ) (v : ℚ) :
    (computeReturns γ rewards v).length = rewards.length + 1 := by
  induction rewards with
  | nil => rfl
  | cons r rs ih => simpa [computeReturns] using ih

theorem computeReturns_getD_zero (γ : ℚ) (rewards : List ℚ) (v : ℚ) :
    (computeReturns γ rewards v).getD 0 0 = (computeReturns γ rewards v).headI := by
  cases rewards <;> rfl

theorem computeReturns_getD_length (γ : ℚ) (rewards : List ℚ) (v : ℚ) :
    (computeReturns γ rewards v).getD rewards.length 0 = v := by
  induction rewards with
  | nil => rfl
  | cons r rs ih => simpa [computeReturns] using ih

theorem computeReturns_getD_lt (γ : ℚ) (rewards : List ℚ) (v : ℚ) (t : Nat)
    (ht : t < rewards.length) :
    (computeReturns γ rewards v).getD t 0 =
      rewards.getD t 0 + γ * (computeReturns γ rewards v).getD (t + 1) 0 := by
  induction rewards generalizing t with
  | nil => exact absurd ht (Nat.not_lt_zero t)
  | cons r rs ih =>
    cases t with
    | zero =>
      simp only [computeReturns, List.getD_cons_zero, List.getD_cons_succ]
      rw [computeReturns_getD_zero]
    | succ t =>
      simpa [computeReturns] using ih t (Nat.lt_of_succ_lt_succ ht)

/-! Claim theorems -/

/-- C1: for every reward sequence rewards(0..episode_len-1) and terminal
bootstrap value v, the returns computed after an episode satisfy
returns(episode_len) = v and, for every t below episode_len,
returns(t) = rewards(t) + discount_factor * returns(t+1) exactly. -/
theorem returns_backward_recursion (discount_factor v : ℚ) (rewards : List ℚ)
    (t : Nat) (ht : t < rewards.length) :
    (computeReturns discount_factor rewards v).getD rewards.length 0 = v ∧
    (computeReturns discount_factor rewards v).getD t 0 =
      rewards.getD t 0 +
        discount_factor * (computeReturns discount_factor rewards v).getD (t + 1) 0 :=
  ⟨computeReturns_getD_length discount_factor rewards v,
   computeReturns_getD_lt discount_factor rewards v t ht⟩

/-- Witness for C1 at the spec's own scenario: rewards (1, 2, 3, 4),
discount 1/2, terminal bootstrap 10, checked at t = 1. -/
theorem returns_backward_recursion_witness :
    1 < ([1, 2, 3, 4] : List ℚ).length ∧
    ((computeReturns (1/2) [1, 2, 3, 4] 10).getD ([1, 2, 3, 4] : List ℚ).length 0 = 10 ∧
      (computeReturns (1/2) [1, 2, 3, 4] 10).getD 1 0 =
        ([1, 2, 3, 4] : List ℚ).getD 1 0 +
          (1/2) * (computeReturns (1/2) [1, 2, 3, 4] 10).getD (1 + 1) 0) :=
  ⟨by decide, returns_backward_recursion (1/2) 10 [1, 2, 3, 4] 1 (by decide)⟩

/-- C2: for every step of the rule-index sequence, if the index is out of
range for the rule list, or the rule's pattern has zero matches against the
current graph, the graph is unchanged after that step. -/
theorem rewrite_noop_safety {Graph Rule Match : Type} (rules : List Rule)
    (findMatches : Rule → Graph → List Match)
    (applyRule : Rule → Graph → Match → Graph) (g : Graph) (idx : Nat) :
    (rules.length ≤ idx → rewriteStep rules findMatches applyRule g idx = g) ∧
    (∀ h : idx < rules.length, findMatches (rules.get ⟨idx, h⟩) g = [] →
      rewriteStep rules findMatches applyRule g idx = g) := by
  constructor
  · intro hle
    unfold rewriteStep
    rw [dif_neg (Nat.not_lt.mpr hle)]
  · intro h hm
    unfold rewriteStep
    rw [dif_pos h, hm]

/-- Witness for C2: a one-rule set whose pattern never matches, checked at
an out-of-range index 5 and at the in-range index 0. -/
theorem rewrite_noop_safety_witness :
    rewriteStep [0] (fun _ _ => ([] : List Nat)) (fun _ g _ => g + 1) 7 5 = 7 ∧
    rewriteStep [0] (fun _ _ => ([] : List Nat)) (fun _ g _ => g + 1) 7 0 = 7 :=
  ⟨(rewrite_noop_safety [0] (fun _ _ => ([] : List Nat)) (fun _ g _ => g + 1) 7 5).1
      (by decide),
   (rewrite_noop_safety [0] (fun _ _ => ([] : List Nat)) (fun _ g _ => g + 1) 7 0).2
      (by decide) rfl⟩

/-- C3: the rewrite is deterministic: for an in-range rule index whose
pattern has at least one match, the first match returned by the matcher is
selected and the rule is applied there; and two runs of the rule-sequence
rewrite on equal inputs produce identical graphs. -/
theorem rewrite_first_match_deterministic {Graph Rule Match : Type}
    (rules : List Rule) (findMatches : Rule → Graph → List Match)
    (applyRule : Rule → Graph → Match → Graph) (g g' : Graph)
    (seq : List Nat) (idx : Nat) (h : idx < rules.length)
    (m : Match) (ms : List Match)
    (hm : findMatches (rules.get ⟨idx, h⟩) g = m :: ms) (hg : g' = g) :
    rewriteStep rules findMatches applyRule g idx =
      applyRule (rules.get ⟨idx, h⟩) g m ∧
    applyRuleSequence rules findMatches applyRule seq g' =
      applyRuleSequence rules findMatches applyRule seq g := by
  constructor
  · unfold rewriteStep
    rw [dif_pos h, hm]
  · rw [hg]

/-- Witness for C3: a one-rule set whose pattern matches once; the step
applies the rule at that match (7 rewrites to 7 + 3 + 10 = 20). -/
theorem rewrite_first_match_deterministic_witness :
    rewriteStep [3] (fun _ _ => [10]) (fun r g m => g + r + m) 7 0 =
      (fun r g m => g + r + m) (List.get [3] ⟨0, by decide⟩) 7 10 ∧
    applyRuleSequence [3] (fun _ _ => [10]) (fun r g m => g + r + m) [0, 5] 7 =
      applyRuleSequence [3] (fun _ _ => [10]) (fun r g m => g + r + m) [0, 5] 7 :=
  rewrite_first_match_deterministic [3] (fun _ _ => [10]) (fun r g m => g + r + m)
    7 7 [0, 5] 0 (by decide) 10 [] rfl rfl

theorem replayInterval_eq {σ Act : Type} (physicsStep : Act → σ → σ)
    (objective : σ → ℚ) (action : Act) (n : Nat) (s : σ) (reward : ℚ) :
    replayInterval physicsStep objective action n s reward =
      ((physicsStep action)^[n] s,
        reward + ∑ i ∈ Finset.range n, objective ((physicsStep action)^[i + 1] s)) := by
  induction n generalizing s reward with
  | zero => simp [replayInterval]
  | succ n ih =>
    rw [replayInterval, ih]
    refine Prod.ext ?_ ?_
    · exact (Function.iterate_succ_apply (physicsStep action) n s).symm
    · show reward + objective (physicsStep action s) +
          ∑ i ∈ Finset.range n, objective ((physicsStep action)^[i + 1] (physicsStep action s)) =
        reward + ∑ i ∈ Finset.range (n + 1), objective ((physicsStep action)^[i + 1] s)
      have hshift : ∀ i : Nat,
          (physicsStep action)^[i + 1] (physicsStep action s) =
            (physicsStep action)^[i + 1 + 1] s := by
        intro i
        exact (Function.iterate_succ_apply (physicsStep action) (i + 1) s).symm
      rw [Finset.sum_congr rfl fun i _ => congrArg objective (hshift i),
        Finset.sum_range_succ' (fun i => objective ((physicsStep action)^[i + 1] s)) n]
      simp [add_assoc, add_comm]

theorem runSteps_lengths {OptS σ Obs Act : Type} (P : EpisodeParams OptS σ Obs Act)
    (n : Nat) (opt : OptS) (s : σ) :
    (runSteps P n opt s).obsList.length = n ∧
    (runSteps P n opt s).actions.length = n ∧
    (runSteps P n opt s).rewards.length = n := by
  induction n generalizing opt s with
  | zero => exact ⟨rfl, rfl, rfl⟩
  | succ n ih =>
    have h := ih (controlStep P opt s).opt (controlStep P opt s).sim
    simp [runSteps, h.1, h.2.1, h.2.2]

theorem runEpisode_sim_current {OptS σ Obs Act : Type}
    (P : EpisodeParams OptS σ Obs Act) (episode_len : Nat) (opt0 : OptS)
    (sim0 : SimState σ) :
    (runEpisode P episode_len opt0 sim0).sim.current = sim0.current := by
  simp [runEpisode, saveState, restoreState]

theorem runEpisode_obsList_length {OptS σ Obs Act : Type}
    (P : EpisodeParams OptS σ Obs Act) (episode_len : Nat) (opt0 : OptS)
    (sim0 : SimState σ) :
    (runEpisode P episode_len opt0 sim0).obsList.length = episode_len := by
  simp [runEpisode, (runSteps_lengths P episode_len _ _).1]

theorem runEpisode_returns_length {OptS σ Obs Act : Type}
    (P : EpisodeParams OptS σ Obs Act) (episode_len : Nat) (opt0 : OptS)
    (sim0 : SimState σ) :
    (runEpisode P episode_len opt0 sim0).returns.length = episode_len + 1 := by
  simp [runEpisode, computeReturns_length, (runSteps_lengths P episode_len _ _).2.2]

theorem episodeStep_buffer {OptS σ Obs Act G : Type}
    (P : EpisodeParams OptS σ Obs Act) (nextSeed : G → Nat × G)
    (optInit : Nat → OptS) (episode_len : Nat) (st : RunState G σ Obs Act) :
    (episodeStep P nextSeed optInit episode_len st).buffer.length =
      st.buffer.length + episode_len ∧
    (episodeStep P nextSeed optInit episode_len st).buffer.take st.buffer.length =
      st.buffer ∧
    (episodeStep P nextSeed optInit episode_len st).trainCalls =
      st.trainCalls ++ [(episodeStep P nextSeed optInit episode_len st).buffer] ∧
    (episodeStep P nextSeed optInit episode_len st).sim.current = st.sim.current := by
  have hpairs :
      ((runEpisode P episode_len (optInit (nextSeed st.gen).1) st.sim).obsList.zip
        ((runEpisode P episode_len (optInit (nextSeed st.gen).1) st.sim).returns.take
          episode_len)).length = episode_len := by
    rw [List.length_zip, runEpisode_obsList_length, List.length_take,
      runEpisode_returns_length]
    omega
  refine ⟨?_, ?_, ?_, ?_⟩
  · simp [episodeStep, hpairs]
  · simp [episodeStep, List.take_left]
  · simp [episodeStep]
  · simp [episodeStep, runEpisode_sim_current]

theorem runEpisodes_succ {OptS σ Obs Act G : Type}
    (P : EpisodeParams OptS σ Obs Act) (nextSeed : G → Nat × G)
    (optInit : Nat → OptS) (episode_len k : Nat) (st : RunState G σ Obs Act) :
    runEpisodes P nextSeed optInit episode_len (k + 1) st =
      episodeStep P nextSeed optInit episode_len
        (runEpisodes P nextSeed optInit episode_len k st) := by
  unfold runEpisodes
  exact Function.iterate_succ_apply' (episodeStep P nextSeed optInit episode_len) k st

theorem runEpisodes_buffer_length {OptS σ Obs Act G : Type}
    (P : EpisodeParams OptS σ Obs Act) (nextSeed : G → Nat × G)
    (optInit : Nat → OptS) (episode_len : Nat) (st : RunState G σ Obs Act)
    (k : Nat) :
    (runEpisodes P nextSeed optInit episode_len k st).buffer.length =
      st.buffer.length + k * episode_len := by
  induction k with
  | zero => simp [runEpisodes]
  | succ k ih =>
    rw [runEpisodes_succ,
      (episodeStep_buffer P nextSeed optInit episode_len _).1, ih]
    ring

theorem runEpisodes_sim_current {OptS σ Obs Act G : Type}
    (P : EpisodeParams OptS σ Obs Act) (nextSeed : G → Nat × G)
    (optInit : Nat → OptS) (episode_len : Nat) (st : RunState G σ Obs Act)
    (k : Nat) :
    (runEpisodes P nextSeed optInit episode_len k st).sim.current =
      st.sim.current := by
  induction k with
  | zero => rfl
  | succ k ih =>
    rw [runEpisodes_succ,
      (episodeStep_buffer P nextSeed optInit episode_len _).2.2.2, ih]

theorem runEpisodes_trainCalls_length {OptS σ Obs Act G : Type}
    (P : EpisodeParams OptS σ Obs Act) (nextSeed : G → Nat × G)
    (optInit : Nat → OptS) (episode_len : Nat) (st : RunState G σ Obs Act)
    (k : Nat) :
    (runEpisodes P nextSeed optInit episode_len k st).trainCalls.length =
      st.trainCalls.length + k := by
  induction k with
  | zero => rfl
  | succ k ih =>
    rw [runEpisodes_succ,
      (episodeStep_buffer P nextSeed optInit episode_len _).2.2.1]
    simp [ih]
    omega

/-- C4: the main simulation is checkpointed with saveState before the
episode's replay and restored with restoreState after the terminal
observation used for bootstrapping is captured, so the simulation state
after an episode equals the state before it, every episode of the loop
starts from the identical initial simulation configuration, and saveState
followed by restoreState leaves the queryable simulation state identical. -/
theorem episode_checkpoint_restore {OptS σ Obs Act G : Type}
    (P : EpisodeParams OptS σ Obs Act) (nextSeed : G → Nat × G)
    (optInit : Nat → OptS) (episode_len : Nat) (opt0 : OptS)
    (sim0 : SimState σ) (st : RunState G σ Obs Act) (k : Nat) :
    (runEpisode P episode_len opt0 sim0).sim.current = sim0.current ∧
    (∀ s : SimState σ, (restoreState (saveState s)).current = s.current) ∧
    (runEpisodes P nextSeed optInit episode_len k st).sim.current =
      st.sim.current :=
  ⟨runEpisode_sim_current P episode_len opt0 sim0,
   fun _ => rfl,
   runEpisodes_sim_current P nextSeed optInit episode_len st k⟩

/-- C5: with the optimize flag set, after k completed episodes of length
episode_len the replay buffer holds exactly k * episode_len
observation/return pairs, and the first k * episode_len pairs of the buffer
after episode k+1 are exactly the buffer after episode k: the buffer is
append-only and never shrinks within a run. -/
theorem replay_buffer_growth {OptS σ Obs G : Type}
    (P : EpisodeParams OptS σ Obs (List ℚ)) (nextSeed : G → Nat × G)
    (optInit : Nat → OptS) (dof_count episode_len : Nat) (gen0 : G)
    (sim0 : SimState σ) (k : Nat) :
    (optimPhase true P nextSeed optInit dof_count episode_len k gen0
      sim0).buffer.length = k * episode_len ∧
    (optimPhase true P nextSeed optInit dof_count episode_len (k + 1) gen0
        sim0).buffer.take (k * episode_len) =
      (optimPhase true P nextSeed optInit dof_count episode_len k gen0
        sim0).buffer := by
  have hphase : ∀ c : Nat,
      optimPhase true P nextSeed optInit dof_count episode_len c gen0 sim0 =
        runEpisodes P nextSeed optInit episode_len c
          { gen := gen0, sim := sim0,
            plan := List.replicate episode_len (List.replicate dof_count (0 : ℚ)),
            buffer := [], trainCalls := [] } := fun c => rfl
  have hlen := runEpisodes_buffer_length P nextSeed optInit episode_len
    { gen := gen0, sim := sim0,
      plan := List.replicate episode_len (List.replicate dof_count (0 : ℚ)),
      buffer := [], trainCalls := [] } k
  constructor
  · rw [hphase k, hlen]
    simp
  · rw [hphase (k + 1), hphase k, runEpisodes_succ]
    have htake := (episodeStep_buffer P nextSeed optInit episode_len
      (runEpisodes P nextSeed optInit episode_len k
        { gen := gen0, sim := sim0,
          plan := List.replicate episode_len (List.replicate dof_count (0 : ℚ)),
          buffer := [], trainCalls := [] })).2.1
    rwa [hlen, List.length_nil, Nat.zero_add] at htake

/-- C6: after appending an episode's pairs, train is called with the entire
accumulated replay buffer: the episode loop performs exactly one train call
per episode, and the train call made in episode k+1 receives exactly the
whole replay buffer as it stands after episode k+1. -/
theorem train_on_entire_buffer {OptS σ Obs Act G : Type}
    (P : EpisodeParams OptS σ Obs Act) (nextSeed : G → Nat × G)
    (optInit : Nat → OptS) (episode_len : Nat) (gen0 : G) (sim0 : SimState σ)
    (plan0 : List Act) (k : Nat) :
    (runEpisodes P nextSeed optInit episode_len k
      ⟨gen0, sim0, plan0, [], []⟩).trainCalls.length = k ∧
    (runEpisodes P nextSeed optInit episode_len (k + 1)
        ⟨gen0, sim0, plan0, [], []⟩).trainCalls =
      (runEpisodes P nextSeed optInit episode_len k
          ⟨gen0, sim0, plan0, [], []⟩).trainCalls ++
        [(runEpisodes P nextSeed optInit episode_len (k + 1)
            ⟨gen0, sim0, plan0, [], []⟩).buffer] := by
  constructor
  · have := runEpisodes_trainCalls_length P nextSeed optInit episode_len
      ⟨gen0, sim0, plan0, [], []⟩ k
    simpa using this
  · rw [runEpisodes_succ]
    exact (episodeStep_buffer P nextSeed optInit episode_len _).2.2.1

/-- C7: in every control step, the committed action is the first column of
the plan produced by update, the window is then advanced by one, the
observation is captured from the main simulation before the action is
applied, and the reward is the sum of the objective values over exactly
interval physics steps during which the committed joint targets are held
constant. -/
theorem control_step_structure {OptS σ Obs Act : Type}
    (P : EpisodeParams OptS σ Obs Act) (opt : OptS) (s : σ) :
    (controlStep P opt s).action = P.firstCol (P.update opt) ∧
    (controlStep P opt s).opt = P.advance (P.update opt) ∧
    (controlStep P opt s).ob = P.getObservation s ∧
    (controlStep P opt s).reward =
      ∑ i ∈ Finset.range P.interval,
        P.objective ((P.physicsStep (P.firstCol (P.update opt)))^[i + 1] s) ∧
    (controlStep P opt s).sim =
      (P.physicsStep (P.firstCol (P.update opt)))^[P.interval] s := by
  refine ⟨rfl, rfl, rfl, ?_, ?_⟩
  · show (replayInterval P.physicsStep P.objective
        (P.firstCol (P.update opt)) P.interval s 0).2 = _
    rw [replayInterval_eq]
    simp
  · show (replayInterval P.physicsStep P.objective
        (P.firstCol (P.update opt)) P.interval s 0).1 = _
    rw [replayInterval_eq]

/-- C8: if the collection of graphs loaded from the graph file is empty,
the program terminates with exit code 1 before any rule conversion or
rewriting: the result is Except.error 1 for every conversion function,
matcher, rule-application function and rule sequence. -/
theorem empty_graph_file_fatal {Graph Rule Match : Type}
    (createRuleFromGraph : Graph → Rule)
    (findMatches : Rule → Graph → List Match)
    (applyRule : Rule → Graph → Match → Graph)
    (seq : List Nat) (seed : Graph) :
    runViewerSetup ([] : List Graph) createRuleFromGraph findMatches applyRule
      seq seed = Except.error 1 := rfl

/-- C9: with the optimize flag unset, the recorded control plan stays the
zero matrix of shape dof_count x episode_len for the whole run, the replay
buffer stays empty, and every in-range column replayed by a subsequent
rendering pass is the all-zero joint-target vector. -/
theorem no_optim_zero_plan {OptS σ Obs G : Type}
    (P : EpisodeParams OptS σ Obs (List ℚ)) (nextSeed : G → Nat × G)
    (optInit : Nat → OptS) (dof_count episode_len episode_count : Nat)
    (gen0 : G) (sim0 : SimState σ) (j : Nat) (hj : j < episode_len) :
    (optimPhase false P nextSeed optInit dof_count episode_len episode_count
        gen0 sim0).plan =
      List.replicate episode_len (List.replicate dof_count (0 : ℚ)) ∧
    (optimPhase false P nextSeed optInit dof_count episode_len episode_count
        gen0 sim0).buffer = [] ∧
    (optimPhase false P nextSeed optInit dof_count episode_len episode_count
        gen0 sim0).plan.getD j [] = List.replicate dof_count (0 : ℚ) := by
  refine ⟨rfl, rfl, ?_⟩
  show (List.replicate episode_len (List.replicate dof_count (0 : ℚ))).getD j [] = _
  rw [List.getD_eq_getElem?_getD, List.getElem?_replicate, if_pos hj]
  rfl

/-- Witness for C9: dof_count 2, episode_len 3, column 1 of the untouched
plan is the zero vector. -/
theorem no_optim_zero_plan_witness :
    1 < 3 ∧
    ((optimPhase false trivialParams (fun u : Unit => (0, u)) (fun _ => ())
        2 3 5 () ⟨(), none⟩).plan =
      List.replicate 3 (List.replicate 2 (0 : ℚ)) ∧
    (optimPhase false trivialParams (fun u : Unit => (0, u)) (fun _ => ())
        2 3 5 () ⟨(), none⟩).buffer = [] ∧
    (optimPhase false trivialParams (fun u : Unit => (0, u)) (fun _ => ())
        2 3 5 () ⟨(), none⟩).plan.getD 1 [] = List.replicate 2 (0 : ℚ)) :=
  ⟨by decide,
   no_optim_zero_plan trivialParams (fun u : Unit => (0, u)) (fun _ => ())
     2 3 5 () ⟨(), none⟩ 1 (by decide)⟩

theorem renderIterate_inv {σ : Type} (physicsStep : List ℚ → σ → σ)
    (input_sequence : List (List ℚ)) (interval : Nat) (s0 : σ)
    (hlen : 0 < input_sequence.length) (st : Nat × Nat × SimState σ)
    (hj : st.2.1 < input_sequence.length) (hs : st.2.2.saved = some s0) :
    (renderIterate physicsStep input_sequence interval st).2.1 <
      input_sequence.length ∧
    (renderIterate physicsStep input_sequence interval st).2.2.saved =
      some s0 := by
  by_cases h1 : interval ≤ st.1 + 1
  · by_cases h2 : input_sequence.length ≤ st.2.1 + 1
    · simp [renderIterate, h1, h2, restoreState, hs, hlen]
    · simp only [renderIterate, h1, h2, if_true, if_false]
      refine ⟨by omega, hs⟩
  · by_cases h2 : input_sequence.length ≤ st.2.1
    · simp [renderIterate, h1, h2, restoreState, hs, hlen]
    · simp only [renderIterate, h1, h2, if_true, if_false]
      exact ⟨hj, hs⟩

/-- C10: in the rendering replay loop every plan-column access is in
bounds: starting from counters (0, 0) on the freshly saved simulation, the
column index is below the number of recorded columns at every iteration,
the saved checkpoint is preserved, and the iteration taken when the last
physics substep of the last column completes resets both counters to 0 and
restores the simulation to the saved state. -/
theorem render_replay_in_bounds {σ : Type} (physicsStep : List ℚ → σ → σ)
    (input_sequence : List (List ℚ)) (interval : Nat) (s0 : σ)
    (hlen : 0 < input_sequence.length) (n i j : Nat) (sim : SimState σ)
    (hs : sim.saved = some s0) (hj : input_sequence.length ≤ j + 1)
    (hi : interval ≤ i + 1) :
    ((renderIterate physicsStep input_sequence interval)^[n]
        (0, 0, saveState ⟨s0, none⟩)).2.1 < input_sequence.length ∧
    ((renderIterate physicsStep input_sequence interval)^[n]
        (0, 0, saveState ⟨s0, none⟩)).2.2.saved = some s0 ∧
    renderIterate physicsStep input_sequence interval (i, j, sim) =
      (0, 0, ⟨s0, some s0⟩) := by
  have hinv : ∀ m : Nat,
      ((renderIterate physicsStep input_sequence interval)^[m]
          (0, 0, saveState ⟨s0, none⟩)).2.1 < input_sequence.length ∧
      ((renderIterate physicsStep input_sequence interval)^[m]
          (0, 0, saveState ⟨s0, none⟩)).2.2.saved = some s0 := by
    intro m
    induction m with
    | zero => exact ⟨hlen, rfl⟩
    | succ m ihm =>
      rw [Function.iterate_succ_apply']
      exact renderIterate_inv physicsStep input_sequence interval s0 hlen _
        ihm.1 ihm.2
  refine ⟨(hinv n).1, (hinv n).2, ?_⟩
  simp [renderIterate, hi, hj, restoreState, hs]

/-- Witness for C10: a one-column plan with interval 2, checked after 3
iterations and at the wrap state (i, j) = (1, 0). -/
theorem render_replay_in_bounds_witness :
    0 < ([[(0 : ℚ)]] : List (List ℚ)).length ∧
    (((renderIterate (fun _ s => s + 1) [[(0 : ℚ)]] 2)^[3]
        (0, 0, saveState ⟨(5 : Nat), none⟩)).2.1 <
      ([[(0 : ℚ)]] : List (List ℚ)).length ∧
    ((renderIterate (fun _ s => s + 1) [[(0 : ℚ)]] 2)^[3]
        (0, 0, saveState ⟨(5 : Nat), none⟩)).2.2.saved = some 5 ∧
    renderIterate (fun _ s => s + 1) [[(0 : ℚ)]] 2 (1, 0, ⟨(9 : Nat), some 5⟩) =
      (0, 0, ⟨5, some 5⟩)) :=
  ⟨by decide,
   render_replay_in_bounds (fun _ s => s + 1) [[(0 : ℚ)]] 2 (5 : Nat)
     (by decide) 3 1 0 ⟨(9 : Nat), some 5⟩ rfl (by decide) (by decide)⟩

end RoboGrammar
